import Mathlib

/-!
# DX0960BE40A1 MIPI-DSI panel driver: power sequencing and mode query

A shallow embedding of `drivers/gpu/drm/panel/panel-dx0960be40a1.c`.

The driver callbacks are straight-line sequences of calls into the kernel
(regulator core, GPIO, MIPI-DSI host, DRM core).  Each callback is embedded
as a pure function that takes the results of the external calls it makes as
arguments and returns its C return value together with the ordered list of
external calls it performed (its effect trace).

Status codes are C `int` values.  The driver only compares them with zero and
passes them on, never computes with them, so they are modelled as `Int`.
The one conversion is in prepare: `mipi_dsi_dcs_write_buffer` returns an
`ssize_t`, which prepare stores in `int ret` before testing it; that store is
modelled by `narrow_int`.
-/

namespace PanelDx0960be40a1

/-! ## Effects -/

/-- One external call made by the driver.  Calls that return a status carry
the status the kernel returned (for `mipi_dsi_dcs_write_buffer` the `ssize_t`
result, before the driver stores it in an `int`); `gpiod_set_value` is always on `ctx->reset`;
the regulator calls carry the supply names of the `ctx->supplies` array they
were given (all `ARRAY_SIZE(ctx->supplies)` entries). -/
inductive Effect where
  | regulator_bulk_enable (supplies : List String) (ret : Int)
  | regulator_bulk_disable (supplies : List String) (ret : Int)
  | msleep (ms : Nat)
  | gpiod_set_value (value : Nat)
  | mipi_dsi_dcs_write_buffer (data : List Nat) (ret : Int)
  | mipi_dsi_dcs_set_display_on (ret : Int)
  | mipi_dsi_dcs_set_display_off (ret : Int)
  | mipi_dsi_dcs_enter_sleep_mode (ret : Int)
  | dev_err (fmt : String) (args : List Int)
  deriving DecidableEq

/-! ## Data model -/

/-- Length of one init command, `K101_IM2BA02_INIT_CMD_LEN`. -/
def K101_IM2BA02_INIT_CMD_LEN : Nat := 1

/-- The table `regulator_names[]` of supply names. -/
def regulator_names : List String := ["dvdd", "avdd", "cvdd"]

/-- The driver context `struct k101_im2ba02`, reduced to what the callbacks read: the supply
names of `supplies[ARRAY_SIZE(regulator_names)]`.  The `dsi` peer and the
`reset` line are unique per panel and are implicit in the effects. -/
structure k101_im2ba02 where
  supplies : List String
  deriving DecidableEq

/-- The supply-naming loop of `k101_im2ba02_dsi_probe`:
`for (i = 0; i < ARRAY_SIZE(ctx->supplies); i++)
   ctx->supplies[i].supply = regulator_names[i];` -/
def k101_im2ba02_dsi_probe_ctx : k101_im2ba02 :=
  { supplies := (List.range regulator_names.length).map
      (fun i => regulator_names.getD i "") }

/-- One entry `struct k101_im2ba02_init_cmd` of the init command table. -/
structure k101_im2ba02_init_cmd where
  data : List Nat
  deriving DecidableEq

/-- The table `k101_im2ba02_init_cmds[]`. -/
def k101_im2ba02_init_cmds : List k101_im2ba02_init_cmd :=
  [ { data := [0x11] },
    { data := [0x29] } ]

/-! ## prepare -/

/-- The assignment of an `ssize_t` value to an `int`, as in
`ret = mipi_dsi_dcs_write_buffer(...)` with `int ret`: on the kernel's LP64
targets the value is reduced modulo 2^32 into the range -2^31 .. 2^31 - 1. -/
def narrow_int (x : Int) : Int :=
  (x + 2147483648) % 4294967296 - 2147483648

/-- The `for` loop of `k101_im2ba02_prepare` from index `i` over the remaining
table entries.  `w i` is the `ssize_t` that `mipi_dsi_dcs_write_buffer`
returns for the `i`-th command; `ret` is that value stored in `int ret`.  The
result is the effects of the loop and `some ret` when the
loop left through `goto powerdown` with that `ret`, `none` when it ran to the
end of the table. -/
def k101_im2ba02_prepare_loop (w : Nat → Int) :
    Nat → List k101_im2ba02_init_cmd → List Effect × Option Int
  | _, [] => ([], none)
  | i, cmd :: rest =>
    let ret := narrow_int (w i)
    let effs := [Effect.mipi_dsi_dcs_write_buffer
                   (cmd.data.take K101_IM2BA02_INIT_CMD_LEN) (w i),
                 Effect.msleep 50]
    if ret < 0 then
      (effs, some ret)
    else
      let r := k101_im2ba02_prepare_loop w (i + 1) rest
      (effs ++ r.1, r.2)

/-- The callback `k101_im2ba02_prepare`.  `ren` is the result of `regulator_bulk_enable`,
`w i` the result of the write of the `i`-th init command, `rdis` the result
of the `regulator_bulk_disable` at label `powerdown`. -/
def k101_im2ba02_prepare (ctx : k101_im2ba02) (ren : Int) (w : Nat → Int)
    (rdis : Int) : Int × List Effect :=
  let e0 := [Effect.regulator_bulk_enable ctx.supplies ren]
  if ren ≠ 0 then
    (ren, e0)
  else
    let e1 := e0 ++ [Effect.msleep 30,
                     Effect.gpiod_set_value 1, Effect.msleep 50,
                     Effect.gpiod_set_value 0, Effect.msleep 50,
                     Effect.gpiod_set_value 1, Effect.msleep 200]
    match k101_im2ba02_prepare_loop w 0 k101_im2ba02_init_cmds with
    | (effs, none) => (0, e1 ++ effs)
    | (effs, some _) =>
      (rdis, e1 ++ effs ++ [Effect.gpiod_set_value 0, Effect.msleep 50,
                            Effect.regulator_bulk_disable ctx.supplies rdis])

/-! ## enable, disable, unprepare -/

/-- The callback `k101_im2ba02_enable`; `ron` is the result of
`mipi_dsi_dcs_set_display_on`. -/
def k101_im2ba02_enable (_ctx : k101_im2ba02) (ron : Int) : Int × List Effect :=
  let e0 := [Effect.msleep 150, Effect.mipi_dsi_dcs_set_display_on ron]
  if ron < 0 then
    (ron, e0)
  else
    (0, e0 ++ [Effect.msleep 50])

/-- The callback `k101_im2ba02_disable`; `roff` is the result of
`mipi_dsi_dcs_set_display_off`. -/
def k101_im2ba02_disable (_ctx : k101_im2ba02) (roff : Int) : Int × List Effect :=
  (roff, [Effect.mipi_dsi_dcs_set_display_off roff])

/-- The callback `k101_im2ba02_unprepare`; `roff`, `rsleep`, `rdis` are the results of
`mipi_dsi_dcs_set_display_off`, `mipi_dsi_dcs_enter_sleep_mode` and
`regulator_bulk_disable`. -/
def k101_im2ba02_unprepare (ctx : k101_im2ba02) (roff rsleep rdis : Int) :
    Int × List Effect :=
  let e0 := [Effect.mipi_dsi_dcs_set_display_off roff]
  let e1 := if roff < 0 then
      e0 ++ [Effect.dev_err "failed to set display off: %d\n" [roff]]
    else e0
  let e2 := e1 ++ [Effect.mipi_dsi_dcs_enter_sleep_mode rsleep]
  let e3 := if rsleep < 0 then
      e2 ++ [Effect.dev_err "failed to enter sleep mode: %d\n" [rsleep]]
    else e2
  (rdis, e3 ++ [Effect.msleep 200, Effect.gpiod_set_value 0, Effect.msleep 20,
                Effect.regulator_bulk_disable ctx.supplies rdis])

/-! ## Mode query -/

/-- The fields of `struct drm_display_mode` that the driver initialises or
that `drm_mode_set_name` reads and writes; every other field of the static
mode is zero and is never touched. -/
structure drm_display_mode where
  clock : Nat
  hdisplay : Nat
  hsync_start : Nat
  hsync_end : Nat
  htotal : Nat
  vdisplay : Nat
  vsync_start : Nat
  vsync_end : Nat
  vtotal : Nat
  flags : Nat
  type : Nat
  width_mm : Nat
  height_mm : Nat
  name : String
  deriving DecidableEq

/-- The part of `struct drm_connector` that `k101_im2ba02_get_modes` touches:
`display_info.width_mm`, `display_info.height_mm` and the `probed_modes`
list. -/
structure drm_connector where
  display_info_width_mm : Nat
  display_info_height_mm : Nat
  probed_modes : List drm_display_mode
  deriving DecidableEq

/-- Constants of the kernel headers that the driver uses without defining
them; they are taken as parameters. -/
structure DrmConsts where
  DRM_MODE_TYPE_DRIVER : Nat
  DRM_MODE_TYPE_PREFERRED : Nat
  DRM_MODE_FLAG_INTERLACE : Nat
  ENOMEM : Int

/-- The static mode `k101_im2ba02_default_mode`, with the sums written as in
the source. -/
def k101_im2ba02_default_mode (K : DrmConsts) : drm_display_mode :=
  { clock := 85000
    hdisplay := 1024
    hsync_start := 1024 + 250
    hsync_end := 1024 + 250 + 10
    htotal := 1024 + 250 + 10 + 60
    vdisplay := 600
    vsync_start := 600 + 12
    vsync_end := 600 + 12 + 1
    vtotal := 600 + 12 + 1 + 22
    flags := 0
    type := K.DRM_MODE_TYPE_DRIVER ||| K.DRM_MODE_TYPE_PREFERRED
    width_mm := 196
    height_mm := 114
    name := "" }

/-- Modelled from the spec: `drm_mode_duplicate` is DRM core code that is not
among the sources.  It allocates a mode and copies the given one into it, or
returns NULL when the allocation fails; `alloc_ok` is the outcome of the
allocation. -/
def drm_mode_duplicate (alloc_ok : Bool) (mode : drm_display_mode) :
    Option drm_display_mode :=
  if alloc_ok then some mode else none

/-- Modelled from the spec: `drm_mode_set_name` is DRM core code that is not
among the sources.  It writes only the `name` field, formatted as
`"%dx%d%s"` from `hdisplay`, `vdisplay` and the interlace flag. -/
def drm_mode_set_name (K : DrmConsts) (mode : drm_display_mode) :
    drm_display_mode :=
  { mode with
    name := toString mode.hdisplay ++ "x" ++ toString mode.vdisplay ++
      (if mode.flags &&& K.DRM_MODE_FLAG_INTERLACE ≠ 0 then "i" else "") }

/-- Modelled from the spec: `drm_mode_probed_add` is DRM core code that is not
among the sources.  It appends the mode to the tail of the connector's
`probed_modes` list. -/
def drm_mode_probed_add (connector : drm_connector) (mode : drm_display_mode) :
    drm_connector :=
  { connector with probed_modes := connector.probed_modes ++ [mode] }

/-- The callback `k101_im2ba02_get_modes`.  `alloc_ok` is whether the
allocation inside `drm_mode_duplicate` succeeds and `vrefresh` is the external
`drm_mode_vrefresh`, used only for the log line.  The result is the C return
value, the connector afterwards, and the log effects. -/
def k101_im2ba02_get_modes (K : DrmConsts) (alloc_ok : Bool)
    (vrefresh : drm_display_mode → Int) (connector : drm_connector) :
    Int × drm_connector × List Effect :=
  match drm_mode_duplicate alloc_ok (k101_im2ba02_default_mode K) with
  | none =>
    (-K.ENOMEM, connector,
      [Effect.dev_err "failed to add mode %ux%u@%u\n"
        [((k101_im2ba02_default_mode K).hdisplay : Int),
         ((k101_im2ba02_default_mode K).vdisplay : Int),
         vrefresh (k101_im2ba02_default_mode K)]])
  | some mode0 =>
    let mode1 := drm_mode_set_name K mode0
    let mode2 := { mode1 with
      type := K.DRM_MODE_TYPE_DRIVER ||| K.DRM_MODE_TYPE_PREFERRED }
    let c1 := { connector with display_info_width_mm := mode2.width_mm }
    let c2 := { c1 with display_info_height_mm := mode2.height_mm }
    (1, drm_mode_probed_add c2 mode2, [])

/-! ## Observations on effect traces -/

/-- Whether an effect sends a DCS command to the panel. -/
def Effect.isDcs : Effect → Bool
  | .mipi_dsi_dcs_write_buffer _ _ => true
  | .mipi_dsi_dcs_set_display_on _ => true
  | .mipi_dsi_dcs_set_display_off _ => true
  | .mipi_dsi_dcs_enter_sleep_mode _ => true
  | _ => false

/-- Whether an effect is a call of `regulator_bulk_enable`. -/
def Effect.isRegEnable : Effect → Bool
  | .regulator_bulk_enable _ _ => true
  | _ => false

/-- Whether an effect is a call of `regulator_bulk_disable`. -/
def Effect.isRegDisable : Effect → Bool
  | .regulator_bulk_disable _ _ => true
  | _ => false

/-- The values written to the reset line, in order. -/
def reset_writes : List Effect → List Nat
  | [] => []
  | .gpiod_set_value v :: es => v :: reset_writes es
  | _ :: es => reset_writes es

/-- The durations of the `msleep` calls, in order. -/
def waits : List Effect → List Nat
  | [] => []
  | .msleep ms :: es => ms :: waits es
  | _ :: es => waits es

/-- Checks that every DCS command in the trace is sent inside a power window:
after a `regulator_bulk_enable` that returned 0 and before the next
`regulator_bulk_disable`.  `powered` says whether such a window is open at the
start of the trace. -/
def dcs_only_while_powered : Bool → List Effect → Bool
  | _, [] => true
  | powered, .regulator_bulk_enable _ ret :: es =>
    dcs_only_while_powered (if ret = 0 then true else powered) es
  | _, .regulator_bulk_disable _ _ :: es => dcs_only_while_powered false es
  | powered, e :: es =>
    (!e.isDcs || powered) && dcs_only_while_powered powered es

/-- Checks that every `mipi_dsi_dcs_write_buffer` in the trace is immediately
followed by `msleep ms`. -/
def writes_followed_by_wait (ms : Nat) : List Effect → Bool
  | [] => true
  | .mipi_dsi_dcs_write_buffer _ _ :: es =>
    decide (es.head? = some (Effect.msleep ms)) && writes_followed_by_wait ms es
  | _ :: es => writes_followed_by_wait ms es

/-! ## The host-driven lifecycle -/

/-- Results of every external call made during one
prepare / enable / disable / unprepare cycle. -/
structure LifecycleEnv where
  prepare_enable : Int
  prepare_write : Nat → Int
  prepare_disable : Int
  enable_display_on : Int
  disable_display_off : Int
  unprepare_display_off : Int
  unprepare_enter_sleep : Int
  unprepare_disable : Int

/-- Modelled from the spec: the host display stack that invokes the callbacks
is not among the sources.  It calls prepare, enable, disable, unprepare in
that order and goes on to the next callback only when the previous one
returned 0.  The result is the trace of all effects of the cycle. -/
def lifecycle (ctx : k101_im2ba02) (env : LifecycleEnv) : List Effect :=
  let p := k101_im2ba02_prepare ctx env.prepare_enable env.prepare_write
    env.prepare_disable
  if p.1 ≠ 0 then p.2 else
  let e := k101_im2ba02_enable ctx env.enable_display_on
  if e.1 ≠ 0 then p.2 ++ e.2 else
  let d := k101_im2ba02_disable ctx env.disable_display_off
  if d.1 ≠ 0 then p.2 ++ e.2 ++ d.2 else
  let u := k101_im2ba02_unprepare ctx env.unprepare_display_off
    env.unprepare_enter_sleep env.unprepare_disable
  p.2 ++ e.2 ++ d.2 ++ u.2

/-- The effects of prepare up to and including the reset pulse. -/
def prepare_power_up (ctx : k101_im2ba02) : List Effect :=
  [Effect.regulator_bulk_enable ctx.supplies 0, Effect.msleep 30,
   Effect.gpiod_set_value 1, Effect.msleep 50,
   Effect.gpiod_set_value 0, Effect.msleep 50,
   Effect.gpiod_set_value 1, Effect.msleep 200]

/-- The effects of the rollback at label `powerdown`. -/
def prepare_powerdown (ctx : k101_im2ba02) (rdis : Int) : List Effect :=
  [Effect.gpiod_set_value 0, Effect.msleep 50,
   Effect.regulator_bulk_disable ctx.supplies rdis]

/-- The outcome in which the regulators enable, every init-command write
fails with -5 (so the first one does), and every other call returns 0. -/
def masked_failure_env : LifecycleEnv :=
  { prepare_enable := 0
    prepare_write := fun _ => -5
    prepare_disable := 0
    enable_display_on := 0
    disable_display_off := 0
    unprepare_display_off := 0
    unprepare_enter_sleep := 0
    unprepare_disable := 0 }

/-! ## Helper lemmas -/

/-- The init loop, unfolded over the two-entry table. -/
theorem prepare_loop_eval (w : Nat → Int) :
    k101_im2ba02_prepare_loop w 0 k101_im2ba02_init_cmds =
      if narrow_int (w 0) < 0 then
        ([Effect.mipi_dsi_dcs_write_buffer [0x11] (w 0), Effect.msleep 50],
          some (narrow_int (w 0)))
      else if narrow_int (w 1) < 0 then
        ([Effect.mipi_dsi_dcs_write_buffer [0x11] (w 0), Effect.msleep 50,
          Effect.mipi_dsi_dcs_write_buffer [0x29] (w 1), Effect.msleep 50],
          some (narrow_int (w 1)))
      else
        ([Effect.mipi_dsi_dcs_write_buffer [0x11] (w 0), Effect.msleep 50,
          Effect.mipi_dsi_dcs_write_buffer [0x29] (w 1), Effect.msleep 50],
          none) := by
  by_cases h0 : narrow_int (w 0) < 0
  · simp [k101_im2ba02_prepare_loop, k101_im2ba02_init_cmds,
      K101_IM2BA02_INIT_CMD_LEN, h0]
  · by_cases h1 : narrow_int (w 1) < 0
    · simp [k101_im2ba02_prepare_loop, k101_im2ba02_init_cmds,
        K101_IM2BA02_INIT_CMD_LEN, h0, h1]
    · simp [k101_im2ba02_prepare_loop, k101_im2ba02_init_cmds,
        K101_IM2BA02_INIT_CMD_LEN, h0, h1]

/-- Prepare when the regulators fail to enable. -/
theorem prepare_enable_failed (ctx : k101_im2ba02) (ren : Int) (w : Nat → Int)
    (rdis : Int) (h : ren ≠ 0) :
    k101_im2ba02_prepare ctx ren w rdis =
      (ren, [Effect.regulator_bulk_enable ctx.supplies ren]) := by
  simp [k101_im2ba02_prepare, h]

/-- Prepare when the first init command fails. -/
theorem prepare_first_failed (ctx : k101_im2ba02) (w : Nat → Int) (rdis : Int)
    (h0 : narrow_int (w 0) < 0) :
    k101_im2ba02_prepare ctx 0 w rdis =
      (rdis, prepare_power_up ctx ++
        [Effect.mipi_dsi_dcs_write_buffer [0x11] (w 0), Effect.msleep 50] ++
        prepare_powerdown ctx rdis) := by
  simp [k101_im2ba02_prepare, prepare_loop_eval, h0, prepare_power_up,
    prepare_powerdown]

/-- Prepare when the first init command succeeds and the second fails. -/
theorem prepare_second_failed (ctx : k101_im2ba02) (w : Nat → Int) (rdis : Int)
    (h0 : 0 ≤ narrow_int (w 0)) (h1 : narrow_int (w 1) < 0) :
    k101_im2ba02_prepare ctx 0 w rdis =
      (rdis, prepare_power_up ctx ++
        [Effect.mipi_dsi_dcs_write_buffer [0x11] (w 0), Effect.msleep 50,
         Effect.mipi_dsi_dcs_write_buffer [0x29] (w 1), Effect.msleep 50] ++
        prepare_powerdown ctx rdis) := by
  simp [k101_im2ba02_prepare, prepare_loop_eval, not_lt.mpr h0, h1,
    prepare_power_up, prepare_powerdown]

/-- Prepare when both init commands succeed. -/
theorem prepare_all_ok (ctx : k101_im2ba02) (w : Nat → Int) (rdis : Int)
    (h0 : 0 ≤ narrow_int (w 0)) (h1 : 0 ≤ narrow_int (w 1)) :
    k101_im2ba02_prepare ctx 0 w rdis =
      (0, prepare_power_up ctx ++
        [Effect.mipi_dsi_dcs_write_buffer [0x11] (w 0), Effect.msleep 50,
         Effect.mipi_dsi_dcs_write_buffer [0x29] (w 1), Effect.msleep 50]) := by
  simp [k101_im2ba02_prepare, prepare_loop_eval, not_lt.mpr h0, not_lt.mpr h1,
    prepare_power_up]

/-- The context set up by probe names the three rails. -/
theorem probe_ctx_supplies :
    k101_im2ba02_dsi_probe_ctx.supplies = ["dvdd", "avdd", "cvdd"] := by
  decide

/-- What the checker `writes_followed_by_wait` establishes: the effect right
after any `mipi_dsi_dcs_write_buffer` in the trace is `msleep ms`. -/
theorem writes_followed_by_wait_sound (ms : Nat) (t : List Effect)
    (h : writes_followed_by_wait ms t = true) (i : Nat) (d : List Nat) (r : Int)
    (hi : t[i]? = some (Effect.mipi_dsi_dcs_write_buffer d r)) :
    t[i + 1]? = some (Effect.msleep ms) := by
  induction t generalizing i with
  | nil => simp at hi
  | cons e es ih =>
    cases i with
    | zero =>
      simp only [List.getElem?_cons_zero, Option.some.injEq] at hi
      subst hi
      simp only [writes_followed_by_wait, Bool.and_eq_true, decide_eq_true_eq] at h
      cases es with
      | nil => simp at h
      | cons e2 es2 => simpa using h.1
    | succ j =>
      have hes : writes_followed_by_wait ms es = true := by
        cases e <;> simp_all [writes_followed_by_wait]
      simpa using ih hes j (by simpa using hi)

/-! ## Return value of prepare -/

/-- C1: with the regulators enabled (result 0), the write of the first init
command failing with -5 and the rollback's `regulator_bulk_disable` returning
0, `k101_im2ba02_prepare` runs the rollback and returns 0, not the -5 of the
failed write. -/
theorem prepare_masks_write_error :
    k101_im2ba02_prepare k101_im2ba02_dsi_probe_ctx 0 (fun _ => -5) 0 =
      (0, [Effect.regulator_bulk_enable ["dvdd", "avdd", "cvdd"] 0,
           Effect.msleep 30,
           Effect.gpiod_set_value 1, Effect.msleep 50,
           Effect.gpiod_set_value 0, Effect.msleep 50,
           Effect.gpiod_set_value 1, Effect.msleep 200,
           Effect.mipi_dsi_dcs_write_buffer [0x11] (-5), Effect.msleep 50,
           Effect.gpiod_set_value 0, Effect.msleep 50,
           Effect.regulator_bulk_disable ["dvdd", "avdd", "cvdd"] 0]) := by
  decide

/-! ## Ordering of the power-up -/

/-- C4: in every run of `k101_im2ba02_prepare` the first effect is
`regulator_bulk_enable` on the supplies of the context (after probe: dvdd,
avdd, cvdd), so it precedes every reset-line write and every DCS write; and
when it returns a non-zero `ren`, prepare returns `ren` and its whole trace is
that one call: no reset-line write and no DCS command. -/
theorem prepare_enables_regulators_first (ctx : k101_im2ba02) (ren : Int)
    (w : Nat → Int) (rdis : Int) :
    k101_im2ba02_dsi_probe_ctx.supplies = ["dvdd", "avdd", "cvdd"] ∧
    (∃ rest, (k101_im2ba02_prepare ctx ren w rdis).2 =
        Effect.regulator_bulk_enable ctx.supplies ren :: rest ∧
      rest.filter Effect.isRegEnable = []) ∧
    (ren ≠ 0 →
      (k101_im2ba02_prepare ctx ren w rdis).1 = ren ∧
      (k101_im2ba02_prepare ctx ren w rdis).2 =
        [Effect.regulator_bulk_enable ctx.supplies ren] ∧
      reset_writes (k101_im2ba02_prepare ctx ren w rdis).2 = [] ∧
      (k101_im2ba02_prepare ctx ren w rdis).2.filter Effect.isDcs = []) := by
  refine ⟨probe_ctx_supplies, ?_, ?_⟩
  · by_cases hen : ren ≠ 0
    · exact ⟨[], by simp [prepare_enable_failed ctx ren w rdis hen]⟩
    · have hz : ren = 0 := not_not.mp hen
      subst hz
      by_cases h0 : narrow_int (w 0) < 0
      · rw [prepare_first_failed ctx w rdis h0]
        exact ⟨_, rfl, by simp [prepare_powerdown, Effect.isRegEnable]⟩
      · have h0p : 0 ≤ narrow_int (w 0) := not_lt.mp h0
        by_cases h1 : narrow_int (w 1) < 0
        · rw [prepare_second_failed ctx w rdis h0p h1]
          exact ⟨_, rfl, by simp [prepare_powerdown, Effect.isRegEnable]⟩
        · rw [prepare_all_ok ctx w rdis h0p (not_lt.mp h1)]
          exact ⟨_, rfl, by simp [Effect.isRegEnable]⟩
  · intro hen
    simp [prepare_enable_failed ctx ren w rdis hen, reset_writes, Effect.isDcs]

/-- Witness for C4 at a failing regulator enable (result -22). -/
theorem prepare_enables_regulators_first_witness :
    (k101_im2ba02_prepare k101_im2ba02_dsi_probe_ctx (-22) (fun _ => 0) 0).1
        = -22 ∧
    (k101_im2ba02_prepare k101_im2ba02_dsi_probe_ctx (-22) (fun _ => 0) 0).2 =
      [Effect.regulator_bulk_enable k101_im2ba02_dsi_probe_ctx.supplies (-22)] :=
  ⟨((prepare_enables_regulators_first k101_im2ba02_dsi_probe_ctx (-22)
      (fun _ => 0) 0).2.2 (by decide)).1,
   ((prepare_enables_regulators_first k101_im2ba02_dsi_probe_ctx (-22)
      (fun _ => 0) 0).2.2 (by decide)).2.1⟩

/-- C9: when `regulator_bulk_enable` returns 0, the trace of
`k101_im2ba02_prepare` starts with the enable, then wait 30 ms, reset := 1,
wait 50 ms, reset := 0, wait 50 ms, reset := 1, wait 200 ms, and the next
effect is the first DCS write (payload 0x11).  The reset line takes the values
1, 0, 1 before the first write, the last of these waits (200) is longer than
the two before it (50 and 50), and every DCS write in the trace, failed or
not, is immediately followed by a 50 ms wait. -/
theorem prepare_reset_pulse (ctx : k101_im2ba02) (w : Nat → Int) (rdis : Int) :
    (∃ rest, (k101_im2ba02_prepare ctx 0 w rdis).2 =
      [Effect.regulator_bulk_enable ctx.supplies 0, Effect.msleep 30,
       Effect.gpiod_set_value 1, Effect.msleep 50,
       Effect.gpiod_set_value 0, Effect.msleep 50,
       Effect.gpiod_set_value 1, Effect.msleep 200] ++
      Effect.mipi_dsi_dcs_write_buffer [0x11] (w 0) :: rest) ∧
    reset_writes (prepare_power_up ctx) = [1, 0, 1] ∧
    waits (prepare_power_up ctx) = [30, 50, 50, 200] ∧
    (50 : Nat) < 200 ∧
    (∀ i d r, (k101_im2ba02_prepare ctx 0 w rdis).2[i]? =
        some (Effect.mipi_dsi_dcs_write_buffer d r) →
      (k101_im2ba02_prepare ctx 0 w rdis).2[i + 1]? =
        some (Effect.msleep 50)) := by
  refine ⟨?_, by simp [prepare_power_up, reset_writes],
    by simp [prepare_power_up, waits], by decide, ?_⟩
  · by_cases h0 : narrow_int (w 0) < 0
    · rw [prepare_first_failed ctx w rdis h0]
      exact ⟨_, by simp [prepare_power_up]; rfl⟩
    · have h0p : 0 ≤ narrow_int (w 0) := not_lt.mp h0
      by_cases h1 : narrow_int (w 1) < 0
      · rw [prepare_second_failed ctx w rdis h0p h1]
        exact ⟨_, by simp [prepare_power_up]; rfl⟩
      · rw [prepare_all_ok ctx w rdis h0p (not_lt.mp h1)]
        exact ⟨_, by simp [prepare_power_up]; rfl⟩
  · intro i d r
    apply writes_followed_by_wait_sound
    by_cases h0 : narrow_int (w 0) < 0
    · rw [prepare_first_failed ctx w rdis h0]
      simp [prepare_power_up, prepare_powerdown, writes_followed_by_wait]
    · have h0p : 0 ≤ narrow_int (w 0) := not_lt.mp h0
      by_cases h1 : narrow_int (w 1) < 0
      · rw [prepare_second_failed ctx w rdis h0p h1]
        simp [prepare_power_up, prepare_powerdown, writes_followed_by_wait]
      · rw [prepare_all_ok ctx w rdis h0p (not_lt.mp h1)]
        simp [prepare_power_up, writes_followed_by_wait]

/-- Witness for C9: the second write (index 10 of the trace) fails with -5 and
is still followed by the 50 ms wait. -/
theorem prepare_reset_pulse_witness :
    (k101_im2ba02_prepare k101_im2ba02_dsi_probe_ctx 0
        (fun i => if i = 1 then -5 else 0) 0).2[10 + 1]? =
      some (Effect.msleep 50) :=
  (prepare_reset_pulse k101_im2ba02_dsi_probe_ctx
    (fun i => if i = 1 then -5 else 0) 0).2.2.2.2 10 [0x29] (-5) (by decide)

/-! ## Rollback of prepare -/

/-- C6: for every combination of results of the display-off and enter-sleep
commands, `k101_im2ba02_unprepare` sends exactly these two DCS commands in
that order, then ends with wait 200 ms, reset := 0, wait 20 ms and one
`regulator_bulk_disable` on the supplies of the context (after probe: dvdd,
avdd, cvdd); that is its only reset-line write and its only regulator call,
and the return value is the result of that disable whatever the commands
returned. -/
theorem unprepare_always_powers_down (ctx : k101_im2ba02)
    (roff rsleep rdis : Int) :
    k101_im2ba02_dsi_probe_ctx.supplies = ["dvdd", "avdd", "cvdd"] ∧
    (k101_im2ba02_unprepare ctx roff rsleep rdis).1 = rdis ∧
    (k101_im2ba02_unprepare ctx roff rsleep rdis).2.filter Effect.isDcs =
      [Effect.mipi_dsi_dcs_set_display_off roff,
       Effect.mipi_dsi_dcs_enter_sleep_mode rsleep] ∧
    (∃ pre, (k101_im2ba02_unprepare ctx roff rsleep rdis).2 =
        pre ++ [Effect.msleep 200, Effect.gpiod_set_value 0, Effect.msleep 20,
                Effect.regulator_bulk_disable ctx.supplies rdis] ∧
      pre.filter Effect.isDcs =
        [Effect.mipi_dsi_dcs_set_display_off roff,
         Effect.mipi_dsi_dcs_enter_sleep_mode rsleep]) ∧
    reset_writes (k101_im2ba02_unprepare ctx roff rsleep rdis).2 = [0] ∧
    (k101_im2ba02_unprepare ctx roff rsleep rdis).2.filter Effect.isRegDisable =
      [Effect.regulator_bulk_disable ctx.supplies rdis] ∧
    (k101_im2ba02_unprepare ctx roff rsleep rdis).2.filter Effect.isRegEnable =
      [] := by
  refine ⟨probe_ctx_supplies, rfl, ?_, ⟨_, rfl, ?_⟩, ?_, ?_, ?_⟩ <;>
    by_cases h0 : roff < 0 <;> by_cases h1 : rsleep < 0 <;>
    simp [k101_im2ba02_unprepare, h0, h1, Effect.isDcs, Effect.isRegDisable,
      Effect.isRegEnable, reset_writes]

/-- C8: `k101_im2ba02_enable` waits 150 ms and then sends its only DCS
command, display-on; it returns 0 when the command returns a non-negative
value and the command's negative result otherwise; in both cases it never
writes the reset line and makes no regulator call, and anything after the
command is a wait. -/
theorem enable_no_teardown (ctx : k101_im2ba02) (ron : Int) :
    (k101_im2ba02_enable ctx ron).1 = (if ron < 0 then ron else 0) ∧
    (∃ post, (k101_im2ba02_enable ctx ron).2 =
        [Effect.msleep 150, Effect.mipi_dsi_dcs_set_display_on ron] ++ post ∧
      (post = [] ∨ post = [Effect.msleep 50])) ∧
    (k101_im2ba02_enable ctx ron).2.filter Effect.isDcs =
      [Effect.mipi_dsi_dcs_set_display_on ron] ∧
    reset_writes (k101_im2ba02_enable ctx ron).2 = [] ∧
    (k101_im2ba02_enable ctx ron).2.filter Effect.isRegEnable = [] ∧
    (k101_im2ba02_enable ctx ron).2.filter Effect.isRegDisable = [] := by
  by_cases h : ron < 0
  · refine ⟨by simp [k101_im2ba02_enable, h], ⟨[], ?_, Or.inl rfl⟩, ?_, ?_, ?_,
      ?_⟩ <;>
      simp [k101_im2ba02_enable, h, Effect.isDcs, Effect.isRegDisable,
        Effect.isRegEnable, reset_writes]
  · refine ⟨by simp [k101_im2ba02_enable, h], ⟨[Effect.msleep 50], ?_,
      Or.inr rfl⟩, ?_, ?_, ?_, ?_⟩ <;>
      simp [k101_im2ba02_enable, h, Effect.isDcs, Effect.isRegDisable,
        Effect.isRegEnable, reset_writes]

/-! ## Mode query -/

/-- C7: when the duplication succeeds `k101_im2ba02_get_modes` returns 1, sets
the connector's display_info width_mm/height_mm to 196/114 and appends exactly
one mode to its probed modes, with clock 85000, hdisplay 1024, hsync_start
1274, hsync_end 1284, htotal 1344, vdisplay 600, vsync_start 612, vsync_end
613, vtotal 635, width_mm 196, height_mm 114 and type DRIVER | PREFERRED;
when the duplication fails it returns -ENOMEM and leaves the connector as it
was, with no mode added. -/
theorem get_modes_fixed_mode (K : DrmConsts) (vrefresh : drm_display_mode → Int)
    (connector : drm_connector) :
    ((k101_im2ba02_get_modes K true vrefresh connector).1 = 1 ∧
      ∃ m : drm_display_mode,
        (k101_im2ba02_get_modes K true vrefresh connector).2.1 =
          { display_info_width_mm := 196
            display_info_height_mm := 114
            probed_modes := connector.probed_modes ++ [m] } ∧
        m.clock = 85000 ∧
        m.hdisplay = 1024 ∧ m.hsync_start = 1274 ∧ m.hsync_end = 1284 ∧
        m.htotal = 1344 ∧
        m.vdisplay = 600 ∧ m.vsync_start = 612 ∧ m.vsync_end = 613 ∧
        m.vtotal = 635 ∧
        m.width_mm = 196 ∧ m.height_mm = 114 ∧
        m.type = K.DRM_MODE_TYPE_DRIVER ||| K.DRM_MODE_TYPE_PREFERRED) ∧
    ((k101_im2ba02_get_modes K false vrefresh connector).1 = -K.ENOMEM ∧
      (k101_im2ba02_get_modes K false vrefresh connector).2.1 = connector ∧
      (k101_im2ba02_get_modes K false vrefresh connector).2.1.probed_modes =
        connector.probed_modes) := by
  refine ⟨⟨rfl, ⟨_, rfl, ?_⟩⟩, rfl, rfl, rfl⟩
  simp [drm_mode_set_name, k101_im2ba02_default_mode]

/-! ## The lifecycle invariant -/

/-- The lifecycle keeps every DCS command inside a power window in every
outcome except the one where prepare's rollback hides a failed write: the
regulators enabled, an init-command write failed (its result is negative once
stored in `int ret`), and the rollback's disable returned 0. -/
theorem lifecycle_powered_unless_masked (ctx : k101_im2ba02)
    (env : LifecycleEnv)
    (h : ¬ (env.prepare_enable = 0 ∧
      (narrow_int (env.prepare_write 0) < 0 ∨ narrow_int (env.prepare_write 1) < 0) ∧
      env.prepare_disable = 0)) :
    dcs_only_while_powered false (lifecycle ctx env) = true := by
  obtain ⟨ren, w, rdis, ron, roff, uoff, usleep, udis⟩ := env
  simp only at h
  by_cases hen : ren ≠ 0
  · simp [lifecycle, prepare_enable_failed ctx ren w rdis hen, hen,
      dcs_only_while_powered]
  · have hz : ren = 0 := not_not.mp hen
    subst hz
    by_cases h0 : narrow_int (w 0) < 0
    · have hd : rdis ≠ 0 := fun hd => h ⟨rfl, Or.inl h0, hd⟩
      simp [lifecycle, prepare_first_failed ctx w rdis h0, hd,
        prepare_power_up, prepare_powerdown, dcs_only_while_powered,
        Effect.isDcs]
    · have h0p : 0 ≤ narrow_int (w 0) := not_lt.mp h0
      by_cases h1 : narrow_int (w 1) < 0
      · have hd : rdis ≠ 0 := fun hd => h ⟨rfl, Or.inr h1, hd⟩
        simp [lifecycle, prepare_second_failed ctx w rdis h0p h1, hd,
          prepare_power_up, prepare_powerdown, dcs_only_while_powered,
          Effect.isDcs]
      · by_cases hon : ron < 0 <;> by_cases hoff : roff = 0 <;>
          by_cases hu0 : uoff < 0 <;> by_cases hu1 : usleep < 0 <;>
          simp [lifecycle, prepare_all_ok ctx w rdis h0p (not_lt.mp h1),
            k101_im2ba02_enable, k101_im2ba02_disable, k101_im2ba02_unprepare,
            prepare_power_up, dcs_only_while_powered, Effect.isDcs,
            hon, hoff, hu0, hu1, ne_of_lt]

/-- C3: in the lifecycle where the regulators enable, the first init-command
write fails with -5 and the rollback's disable returns 0, prepare returns 0,
so the host goes on to enable, and the display-on command of enable is sent
after the rollback's `regulator_bulk_disable` with no enable in between: the
trace has a DCS command outside every power window. -/
theorem lifecycle_dcs_after_rollback :
    (k101_im2ba02_prepare k101_im2ba02_dsi_probe_ctx
      masked_failure_env.prepare_enable masked_failure_env.prepare_write
      masked_failure_env.prepare_disable).1 = 0 ∧
    (lifecycle k101_im2ba02_dsi_probe_ctx masked_failure_env).take 15 =
      [Effect.regulator_bulk_enable ["dvdd", "avdd", "cvdd"] 0,
       Effect.msleep 30,
       Effect.gpiod_set_value 1, Effect.msleep 50,
       Effect.gpiod_set_value 0, Effect.msleep 50,
       Effect.gpiod_set_value 1, Effect.msleep 200,
       Effect.mipi_dsi_dcs_write_buffer [0x11] (-5), Effect.msleep 50,
       Effect.gpiod_set_value 0, Effect.msleep 50,
       Effect.regulator_bulk_disable ["dvdd", "avdd", "cvdd"] 0,
       Effect.msleep 150,
       Effect.mipi_dsi_dcs_set_display_on 0] ∧
    dcs_only_while_powered false
      (lifecycle k101_im2ba02_dsi_probe_ctx masked_failure_env) = false := by
  decide

end PanelDx0960be40a1
